import Mathlib

/-!
Shallow embedding of the grading-controller core of the edx-ora repository
(`controller/models.py` and `staff_grading/views.py`) and proofs of the
specified behaviour of its aggregation, rubric and view functions.

Conventions of the embedding:
* Django querysets over a model's reverse relation become plain Lean lists
  stored on the owning record (`Grader.rubrics` for `grader.rubric_set`,
  `Submission.graders` for `submission.grader_set`).
* `order_by` becomes `List.insertionSort` with the corresponding key
  relation (a stable sort; the database's tie order is unspecified, so any
  stable deterministic order is a faithful refinement).
* Timestamps are naturals; `DecimalField` values are rationals; Python's
  `float()` of such a decimal is treated as the canonical injection (the
  decimals involved are exactly representable for the properties at stake).
* Fallible code (Python code that can raise `IndexError`/`ValueError`)
  returns `Except String _`, the error string naming the exception.
-/

namespace EdxOra

/-- One selectable point value of a rubric category (source: `RubricOption`). -/
structure RubricOption where
  points : Rat
  short_text : String
  text : String
  item_number : Int
  deriving DecidableEq

/-- One scoring category of a rubric (source: `RubricItem`);
`options` embeds the reverse relation `rubricoption_set`. -/
structure RubricItem where
  text : String
  short_text : String
  comment : String
  score : Rat
  max_score : Int
  finished_scoring : Bool
  item_number : Int
  options : List RubricOption
  deriving DecidableEq

/-- A scored breakdown attached to one grading attempt (source: `Rubric`);
`items` embeds the reverse relation `rubricitem_set`. -/
structure Rubric where
  rubric_version : String
  finished_scoring : Bool
  date_created : Nat
  date_modified : Nat
  items : List RubricItem
  deriving DecidableEq

/-- One grading attempt against a submission (source: `Grader`);
`rubrics` embeds the reverse relation `rubric_set`. -/
structure Grader where
  id : Nat
  score : Int
  feedback : String
  status_code : String
  date_created : Nat
  date_modified : Nat
  grader_id : String
  grader_type : String
  confidence : Rat
  is_calibration : Bool
  rubrics : List Rubric
  deriving DecidableEq

/-- One unit of work (source: `Submission`);
`graders` embeds the reverse relation `grader_set`. -/
structure Submission where
  id : Nat
  preferred_grader_type : String
  next_grader_type : String
  previous_grader_type : String
  state : String
  date_created : Nat
  prompt : String
  rubric : String
  student_id : String
  problem_id : String
  location : String
  max_score : Int
  course_id : String
  deriving DecidableEq

/-- A submission together with its grading attempts (the reverse relation
`submission.grader_set`, which Django stores on the `Grader` side). -/
structure SubmissionRecord where
  sub : Submission
  graders : List Grader
  deriving DecidableEq

/-! ### Ordering relations used by the source's `order_by` calls -/

/-- `order_by("-date_modified")` on graders: later modification first. -/
def gdmGE (a b : Grader) : Prop := b.date_modified ≤ a.date_modified

instance : DecidableRel gdmGE := fun _ _ => Nat.decLe _ _

instance : IsTotal Grader gdmGE := ⟨fun a b => Nat.le_total b.date_modified a.date_modified⟩

instance : IsTrans Grader gdmGE := ⟨fun _ _ _ h h' => Nat.le_trans h' h⟩

/-- `order_by('-date_created')` on rubrics: later creation first. -/
def rdcGE (a b : Rubric) : Prop := b.date_created ≤ a.date_created

instance : DecidableRel rdcGE := fun _ _ => Nat.decLe _ _

instance : IsTotal Rubric rdcGE := ⟨fun a b => Nat.le_total b.date_created a.date_created⟩

instance : IsTrans Rubric rdcGE := ⟨fun _ _ _ h h' => Nat.le_trans h' h⟩

/-- `order_by('item_number')` on rubric items: ascending item number. -/
def riLE (a b : RubricItem) : Prop := a.item_number ≤ b.item_number

instance : DecidableRel riLE := fun a b => Int.decLe a.item_number b.item_number

instance : IsTotal RubricItem riLE := ⟨fun a b => Int.le_total a.item_number b.item_number⟩

instance : IsTrans RubricItem riLE := ⟨fun _ _ _ h h' => Int.le_trans h h'⟩

/-- `order_by('item_number')` on rubric options: ascending item number. -/
def roLE (a b : RubricOption) : Prop := a.item_number ≤ b.item_number

instance : DecidableRel roLE := fun a b => Int.decLe a.item_number b.item_number

instance : IsTotal RubricOption roLE := ⟨fun a b => Int.le_total a.item_number b.item_number⟩

instance : IsTrans RubricOption roLE := ⟨fun _ _ _ h h' => Int.le_trans h h'⟩

/-- `order_by('date_created')` on submissions: ascending creation time. -/
def sdcLE (a b : Submission) : Prop := a.date_created ≤ b.date_created

instance : DecidableRel sdcLE := fun _ _ => Nat.decLe _ _

instance : IsTotal Submission sdcLE := ⟨fun a b => Nat.le_total a.date_created b.date_created⟩

instance : IsTrans Submission sdcLE := ⟨fun _ _ _ h h' => Nat.le_trans h h'⟩

/-- Python `int()` applied to a stored decimal value: truncation toward zero. -/
def pyInt (q : Rat) : Int := q.num.tdiv (q.den : Int)

/-! ### Rubric formatting and scoring (source: `Rubric` / `RubricItem` / `RubricOption`) -/

/-- Source: `RubricOption.format_rubric_option`. -/
def format_rubric_option (o : RubricOption) : String :=
  "<option points=\x27" ++ toString (pyInt o.points) ++ "\x27>" ++ o.text ++ "</option>"

/-- Source: `RubricItem.format_rubric_item`; options iterated in
`item_number` order. -/
def format_rubric_item (ri : RubricItem) : String :=
  "<category>" ++ "<description>" ++ ri.text ++ "</description>"
    ++ "<score>" ++ toString (pyInt ri.score) ++ "</score>"
    ++ String.join ((ri.options.insertionSort roLE).map format_rubric_option)
    ++ "</category>"

/-- Source: `Rubric.format_rubric`; items iterated in `item_number` order. -/
def format_rubric (r : Rubric) : String :=
  "<rubric>" ++ String.join ((r.items.insertionSort riLE).map format_rubric_item) ++ "</rubric>"

/-- Source: `Rubric.get_rubric_scores`; per-item scores in `item_number` order. -/
def get_rubric_scores (r : Rubric) : List Rat :=
  (r.items.insertionSort riLE).map (fun ri => ri.score)

/-- Source: `Rubric.get_rubric_headers`; per-item labels in `item_number` order. -/
def get_rubric_headers (r : Rubric) : List String :=
  (r.items.insertionSort riLE).map (fun ri => ri.text)

/-! ### Grader rubric lookups (source: `Grader`) -/

/-- Source: `Grader.has_rubric` — `self.rubric_set.count() > 0`
(counts every rubric, finished or not). -/
def has_rubric (g : Grader) : Bool := g.rubrics.length > 0

/-- Source: `Grader.get_latest_rubric` —
`rubric_set.filter(finished_scoring=True).order_by('-date_created')[0]`;
`none` models the `IndexError` raised when no finished rubric exists. -/
def get_latest_rubric (g : Grader) : Option Rubric :=
  ((g.rubrics.filter (fun r => r.finished_scoring)).insertionSort rdcGE).head?

/-- Source: `Grader.check_for_and_return_latest_rubric`; returns the pair
(`rubric_xml`, `rubric_scores_complete`).  When the grader has rubrics but
none is finished, `get_latest_rubric` raises `IndexError`. -/
def check_for_and_return_latest_rubric (g : Grader) : Except String (String × Bool) :=
  if has_rubric g then
    match get_latest_rubric g with
    | some r => .ok (format_rubric r, true)
    | none => .error "IndexError"
  else
    .ok ("", false)

/-- Source: `Grader.get_latest_rubric_headers_and_scores`; returns the pair
(`rubric_headers`, `rubric_scores`). -/
def get_latest_rubric_headers_and_scores (g : Grader) : Except String (List String × List Rat) :=
  if has_rubric g then
    match get_latest_rubric g with
    | some r => .ok (get_rubric_headers r, get_rubric_scores r)
    | none => .error "IndexError"
  else
    .ok ([], [])

/-! ### Submission-level grader queries (source: `Submission`) -/

/-- Source: `Submission.get_successful_graders` —
`grader_set.filter(status_code=GraderStatus.success)`. -/
def get_successful_graders (s : SubmissionRecord) : List Grader :=
  s.graders.filter (fun g => g.status_code == "S")

/-- Source: `Submission.get_unsuccessful_graders` —
`grader_set.filter(status_code=GraderStatus.failure)`. -/
def get_unsuccessful_graders (s : SubmissionRecord) : List Grader :=
  s.graders.filter (fun g => g.status_code == "F")

/-- A Python list comprehension whose body may raise: the first raised
exception propagates, otherwise the list of results is produced. -/
def mapExcept (f : α → Except String β) : List α → Except String (List β)
  | [] => .ok []
  | x :: xs =>
    match f x with
    | .error e => .error e
    | .ok y =>
      match mapExcept f xs with
      | .error e => .error e
      | .ok ys => .ok (y :: ys)

/-- The dictionary returned by
`Submission.get_all_successful_scores_and_feedback`, which has three
distinct shapes in the source (single-grader result, parallel peer-list
result, and the inconsistent-history fallback whose key set differs). -/
inductive AggregateResult where
  /-- Single-attempt dictionary (source lines 149-153 and 157-162). -/
  | single (score : Int) (feedback : String) (grader_type : String) (success : Bool)
      (grader_id : Nat) (submission_id : Nat) (student_id : String)
      (rubric_xml : String) (rubric_scores_complete : Bool)
      (rubric_headers : List String) (rubric_scores : List Rat)
  /-- Parallel peer-list dictionary (source lines 175-178). -/
  | peerList (score : List Int) (feedback : List String) (grader_type : String) (success : Bool)
      (grader_id : List Nat) (submission_id : Nat) (student_id : String)
      (rubric_xml : List String) (rubric_scores_complete : List Bool)
      (rubric_headers : List (List String)) (rubric_scores : List (List Rat))
  /-- Inconsistent-history dictionary (source lines 180-182). -/
  | inconsistent (score : Int) (feedback : String) (grader_type : String) (success : Bool)
      (rubric_scores_complete : Bool) (rubric_xml : String)
      (rubric_headers : List String) (rubric_scores : List Rat) (student_id : String)
  deriving DecidableEq

/-- Source: `Submission.get_all_successful_scores_and_feedback` (lines
142-182); `maxGraderCount` is `settings.MAX_GRADER_COUNT`. -/
def get_all_successful_scores_and_feedback (maxGraderCount : Nat) (s : SubmissionRecord) :
    Except String AggregateResult :=
  let all_graders := (get_successful_graders s).insertionSort gdmGE
  let all_graders_types := all_graders.map (fun g => g.grader_type)
  match all_graders with
  | [] =>
    match ((get_unsuccessful_graders s).insertionSort gdmGE).head? with
    | none => .error "IndexError"
    | some last_grader =>
      match check_for_and_return_latest_rubric last_grader with
      | .error e => .error e
      | .ok (xml, complete) =>
        match get_latest_rubric_headers_and_scores last_grader with
        | .error e => .error e
        | .ok (hdrs, scs) =>
          .ok (.single 0 last_grader.feedback last_grader.grader_type false last_grader.id
                s.sub.id s.sub.student_id xml complete hdrs scs)
  | g0 :: _ =>
    if g0.grader_type == "IN" || g0.grader_type == "ML"
        || (g0.grader_type == "BC" && !(all_graders_types.any (fun t => t == "PE"))) then
      match check_for_and_return_latest_rubric g0 with
      | .error e => .error e
      | .ok (xml, complete) =>
        match get_latest_rubric_headers_and_scores g0 with
        | .error e => .error e
        | .ok (hdrs, scs) =>
          .ok (.single g0.score g0.feedback g0.grader_type true g0.id
                s.sub.id s.sub.student_id xml complete hdrs scs)
    else if s.sub.previous_grader_type == "PE"
        || (g0.grader_type == "BC" && all_graders_types.any (fun t => t == "PE")) then
      let peer_graders := (all_graders.filter (fun p => p.grader_type == "PE")).take maxGraderCount
      match mapExcept check_for_and_return_latest_rubric peer_graders with
      | .error e => .error e
      | .ok combined_rubrics =>
        match mapExcept get_latest_rubric_headers_and_scores peer_graders with
        | .error e => .error e
        | .ok headers_scores =>
          .ok (.peerList (peer_graders.map (fun p => p.score))
                (peer_graders.map (fun p => p.feedback)) "PE" true
                (peer_graders.map (fun p => p.id)) s.sub.id s.sub.student_id
                (combined_rubrics.map Prod.fst) (combined_rubrics.map Prod.snd)
                (headers_scores.map Prod.fst) (headers_scores.map Prod.snd))
    else
      .ok (.inconsistent (-1) "There was an error with your submission."
            s.sub.previous_grader_type false false "" [] [] s.sub.student_id)

/-- First element attaining the maximal `date_created`, which is the grader
Python's `all_graders[grader_times.index(max(grader_times))]` selects
(source: `Submission.get_last_grader`). -/
def pickLatest (g : Grader) : List Grader → Grader
  | [] => g
  | h :: t => if g.date_created < h.date_created then pickLatest h t else pickLatest g t

/-- Source: `Submission.get_last_grader`; `none` models the `ValueError`
raised by `max([])` when the submission has no grading attempts. -/
def get_last_grader (s : SubmissionRecord) : Option Grader :=
  match s.graders with
  | [] => none
  | g :: gs => some (pickLatest g gs)

/-- Source: `Submission.set_previous_grader_type`; returns the updated
record and the saved-message string. -/
def set_previous_grader_type (s : SubmissionRecord) : Option (SubmissionRecord × String) :=
  match get_last_grader s with
  | none => none
  | some g =>
    some ({ s with sub := { s.sub with previous_grader_type := g.grader_type } }, "Save ok.")

/-! ### Staff grading views (source: `staff_grading/views.py`)

The views call helpers from modules outside the two source files
(`staff_grading_util`, `grader_util`, `rubric_functions`); those helpers are
taken as function parameters, so every theorem below holds for all
implementations of them. -/

/-- The request data `save_grade` reads; `none` models an absent POST field
(`request.POST.get` returning `None`). -/
structure SaveGradeRequest where
  method : String
  course_id : Option String
  grader_id : Option String
  submission_id : Option String
  score : Option String
  feedback : Option String
  skipped : Option String
  rubric_scores_complete : Option String
  rubric_scores : List String
  submission_flagged : Option String
  deriving DecidableEq

/-- A view's tagged response: `util._success_response` or
`util._error_response` with its error string. -/
inductive ViewResponse where
  | success
  | err (kind : String)
  deriving DecidableEq

/-- The persistent store the views read and mutate. -/
structure ControllerDB where
  submissions : List Submission
  deriving DecidableEq

/-- The dictionary `d` passed to `grader_util.create_and_handle_grader_object`
(source lines 220-234). -/
structure GraderPayload where
  submission_id : String
  score : Int
  feedback : String
  grader_id : String
  grader_type : String
  status : String
  confidence : Rat
  errors : String
  rubric_scores_complete : Option String
  rubric_scores : List String
  is_submission_flagged : Bool
  deriving DecidableEq

/-- Python truthiness of an optional string: `None` and `""` are falsy. -/
def truthyStr : Option String → Bool
  | none => false
  | some s => !(s == "")

/-- Source: `staff_grading.views.save_grade` (lines 145-243).  Helpers not
defined in the two source files are parameters: `set_skipped` is
`staff_grading_util.set_instructor_grading_item_skipped`, `parse_rubric_ok`
the success flag of `rubric_functions.parse_rubric`,
`validate_rubric_scores` is `grader_util.validate_rubric_scores` and
`create_grader` is `grader_util.create_and_handle_grader_object` (success
flag, header, updated store).  `.error` models an uncaught exception. -/
def save_grade
    (set_skipped : String → ControllerDB → Bool × String × ControllerDB)
    (parse_rubric_ok : String → Bool)
    (validate_rubric_scores : List String → Option String → Submission → Bool × String)
    (create_grader : GraderPayload → ControllerDB → Bool × String × ControllerDB)
    (req : SaveGradeRequest) (db : ControllerDB) : Except String (ViewResponse × ControllerDB) :=
  if !(req.method == "POST") then
    .ok (.err "Request needs to be GET", db)
  else
    let is_submission_flagged :=
      match req.submission_flagged with
      | some s => s.toLower == "true"
      | none => false
    if !(truthyStr req.course_id && truthyStr req.grader_id && truthyStr req.submission_id)
        || req.score.isNone || req.feedback.isNone then
      .ok (.err "required_parameter_missing", db)
    else if req.skipped == some "True" then
      match set_skipped (req.submission_id.getD "") db with
      | (true, _, db') => .ok (.success, db')
      | (false, msg, db') => .ok (.err msg, db')
    else
      match (req.score.getD "").toInt? with
      | none => .ok (.err "grade_save_error", db)
      | some score =>
        match db.submissions.find? (fun s => toString s.id == req.submission_id.getD "") with
        | none => .ok (.err "grade_save_error", db)
        | some sub =>
          match ((db.submissions.filter (fun s =>
              s.location == sub.location)).insertionSort sdcLE).head? with
          | none => .error "IndexError"
          | some first_sub_for_location =>
            let rubric_success := parse_rubric_ok first_sub_for_location.rubric
            let validation :=
              if rubric_success then
                validate_rubric_scores req.rubric_scores req.rubric_scores_complete sub
              else (true, "")
            if !validation.1 then
              .ok (.err "grade_save_error", db)
            else
              let d : GraderPayload := {
                submission_id := req.submission_id.getD ""
                score := score
                feedback := req.feedback.getD ""
                grader_id := req.grader_id.getD ""
                grader_type := "IN"
                status := "S"
                confidence := 1
                errors := ""
                rubric_scores_complete := req.rubric_scores_complete
                rubric_scores := req.rubric_scores
                is_submission_flagged := is_submission_flagged }
              match create_grader d db with
              | (true, _, db') => .ok (.success, db')
              | (false, _, db') => .ok (.err "grade_save_error", db')

/-- One entry of the `problem_list` built by `get_problem_list`
(source lines 297-305). -/
structure ProblemListItem where
  location : String
  problem_name : String
  problem_name_from_location : String
  num_graded : Nat
  num_pending : Nat
  num_required : Int
  min_for_ml : Int
  deriving DecidableEq

/-- The tagged response of `get_problem_list`. -/
inductive ProblemListResponse where
  | success (problem_list : List ProblemListItem)
  | err (msg : String)
  deriving DecidableEq

/-- Scanner for `pySplit`: splits at each left-most non-overlapping
occurrence of `sep`.  The fuel argument only makes the recursion
structural; it strictly exceeds the number of characters consumed. -/
def pySplitGo (sep : List Char) : Nat → List Char → List Char → List (List Char)
  | _, [], acc => [acc.reverse]
  | 0, cs, acc => [acc.reverse ++ cs]
  | fuel + 1, c :: rest, acc =>
    if sep.isPrefixOf (c :: rest) then
      acc.reverse :: pySplitGo sep fuel (List.drop sep.length (c :: rest)) []
    else
      pySplitGo sep fuel rest (c :: acc)

/-- Python `s.split(sep)` for a nonempty separator: the pieces of `s`
between consecutive non-overlapping occurrences of `sep`. -/
def pySplit (s sep : String) : List String :=
  (pySplitGo sep.toList (s.toList.length + 1) s.toList []).map String.mk

/-- The per-location loop body of `get_problem_list` (source lines
284-306); `.error` models the `IndexError` of `location.split("://")[1]`
when a location has no `://` separator. -/
def buildLocationInfo (minPeer minML : Int) (problem_name : String → String)
    (pending_count graded_count : String → Nat) (subs : List Submission) :
    List String → Except String (List ProblemListItem)
  | [] => .ok []
  | loc :: rest =>
    let finished_instructor_graded := graded_count loc
    let min_scored_for_location :=
      if 0 < (subs.filter (fun s =>
          s.location == loc && s.preferred_grader_type == "ML")).length then minML else minPeer
    let submissions_required :=
      max 0 (min_scored_for_location - (finished_instructor_graded : Int))
    match (pySplit loc "://").get? 1 with
    | none => .error "IndexError"
    | some problem_name_from_location =>
      match buildLocationInfo minPeer minML problem_name pending_count graded_count subs rest with
      | .error e => .error e
      | .ok tail =>
        .ok ({ location := loc
               problem_name := problem_name loc
               problem_name_from_location := problem_name_from_location
               num_graded := finished_instructor_graded
               num_pending := pending_count loc
               num_required := submissions_required
               min_for_ml := minML } :: tail)

/-- Source: `staff_grading.views.get_problem_list` (lines 250-310).
`minPeer`/`minML` are `settings.MIN_TO_USE_PEER`/`settings.MIN_TO_USE_ML`;
`problem_name`, `pending_count` and `graded_count` are the
`StaffLocation` helpers from `staff_grading_util` (not among the source
files), taken as parameters. -/
def get_problem_list (minPeer minML : Int) (problem_name : String → String)
    (pending_count graded_count : String → Nat)
    (method : String) (course_id : Option String) (subs : List Submission) :
    Except String ProblemListResponse :=
  if !(method == "GET") then
    .ok (.err "Request needs to be GET.")
  else if !(truthyStr course_id) then
    .ok (.err "Missing needed tag course_id")
  else
    let locations_for_course :=
      ((subs.filter (fun s => s.course_id == course_id.getD "")).map
        (fun s => s.location)).eraseDups
    if locations_for_course.length == 0 then
      .ok (.err "No problems associated with course.")
    else
      match buildLocationInfo minPeer minML problem_name pending_count graded_count subs
          locations_for_course with
      | .error e => .error e
      | .ok location_info => .ok (.success location_info)

/-! ### Helper lemmas -/

/-- A grader whose rubric set, when nonempty, holds a finished rubric.  On
such graders the source's rubric lookups cannot raise `IndexError`. -/
def rubricOk (g : Grader) : Prop :=
  g.rubrics ≠ [] → ∃ r ∈ g.rubrics, r.finished_scoring = true

instance : DecidablePred rubricOk := fun g => by
  unfold rubricOk; infer_instance

theorem get_latest_rubric_isSome_of_rubricOk {g : Grader} (hne : g.rubrics ≠ [])
    (h : rubricOk g) : ∃ r, get_latest_rubric g = some r := by
  obtain ⟨r, hr, hfin⟩ := h hne
  have hmem : r ∈ g.rubrics.filter (fun r => r.finished_scoring) := by
    rw [List.mem_filter]; exact ⟨hr, hfin⟩
  have hmem' : r ∈ (g.rubrics.filter (fun r => r.finished_scoring)).insertionSort rdcGE :=
    (List.mem_insertionSort rdcGE).mpr hmem
  unfold get_latest_rubric
  cases hs : (g.rubrics.filter (fun r => r.finished_scoring)).insertionSort rdcGE with
  | nil => rw [hs] at hmem'; cases hmem'
  | cons a t => exact ⟨a, rfl⟩

theorem check_rubric_ok_of_rubricOk {g : Grader} (h : rubricOk g) :
    ∃ pr, check_for_and_return_latest_rubric g = .ok pr := by
  unfold check_for_and_return_latest_rubric
  by_cases hne : g.rubrics = []
  · have hhr : has_rubric g = false := by simp [has_rubric, hne]
    rw [hhr]; exact ⟨("", false), rfl⟩
  · have hhr : has_rubric g = true := by
      simp only [has_rubric, gt_iff_lt, decide_eq_true_eq]
      exact List.length_pos.mpr hne
    rw [hhr]
    obtain ⟨r, hr⟩ := get_latest_rubric_isSome_of_rubricOk hne h
    rw [hr]; exact ⟨(format_rubric r, true), rfl⟩

theorem headers_scores_ok_of_rubricOk {g : Grader} (h : rubricOk g) :
    ∃ pr, get_latest_rubric_headers_and_scores g = .ok pr := by
  unfold get_latest_rubric_headers_and_scores
  by_cases hne : g.rubrics = []
  · have hhr : has_rubric g = false := by simp [has_rubric, hne]
    rw [hhr]; exact ⟨([], []), rfl⟩
  · have hhr : has_rubric g = true := by
      simp only [has_rubric, gt_iff_lt, decide_eq_true_eq]
      exact List.length_pos.mpr hne
    rw [hhr]
    obtain ⟨r, hr⟩ := get_latest_rubric_isSome_of_rubricOk hne h
    rw [hr]; exact ⟨(get_rubric_headers r, get_rubric_scores r), rfl⟩

theorem mapExcept_ok_of_forall {α β : Type} {f : α → Except String β} :
    ∀ {l : List α}, (∀ x ∈ l, ∃ y, f x = .ok y) →
      ∃ ys, mapExcept f l = .ok ys ∧ ys.length = l.length
  | [], _ => ⟨[], rfl, rfl⟩
  | x :: xs, h => by
    obtain ⟨y, hy⟩ := h x (List.mem_cons_self x xs)
    obtain ⟨ys, hys, hlen⟩ := mapExcept_ok_of_forall (fun a ha => h a (List.mem_cons_of_mem x ha))
    exact ⟨y :: ys, by simp only [mapExcept, hy, hys], by simp [hlen]⟩

/-- A grader that strictly most recently modified among a list is the head
of the list after sorting by `-date_modified`. -/
theorem insertionSort_head_of_strict_max {l : List Grader} {g : Grader} (hg : g ∈ l)
    (hmax : ∀ h ∈ l, h ≠ g → h.date_modified < g.date_modified) :
    ∃ t, l.insertionSort gdmGE = g :: t := by
  have hsorted : List.Sorted gdmGE (l.insertionSort gdmGE) := List.sorted_insertionSort gdmGE l
  have hmem : g ∈ l.insertionSort gdmGE := (List.mem_insertionSort gdmGE).mpr hg
  cases hs : l.insertionSort gdmGE with
  | nil => rw [hs] at hmem; cases hmem
  | cons h0 t =>
    rw [hs] at hsorted hmem
    by_cases he : h0 = g
    · exact ⟨t, by rw [he]⟩
    · have h0l : h0 ∈ l := (List.mem_insertionSort gdmGE).mp
        (by rw [hs]; exact List.mem_cons_self h0 t)
      have hlt : h0.date_modified < g.date_modified := hmax h0 h0l he
      rcases List.mem_cons.mp hmem with h | h
      · exact absurd h.symm he
      · have hrel : gdmGE h0 g := List.rel_of_sorted_cons hsorted g h
        exact absurd hrel (by unfold gdmGE; omega)

/-- Two permuted lists that are both strictly sorted on a key are equal. -/
theorem eq_of_perm_of_pairwise_lt {α : Type} {key : α → Int} {l₁ l₂ : List α}
    (hp : l₁.Perm l₂) (h₁ : l₁.Pairwise (fun a b => key a < key b))
    (h₂ : l₂.Pairwise (fun a b => key a < key b)) : l₁ = l₂ := by
  induction l₁ generalizing l₂ with
  | nil => exact (hp.symm.eq_nil).symm
  | cons x xs ih =>
    cases l₂ with
    | nil => exact hp.eq_nil
    | cons y ys =>
      have hx : x = y := by
        rcases List.mem_cons.mp (hp.mem_iff.mp (List.mem_cons_self x xs)) with h | h
        · exact h
        · have hyx : key y < key x := (List.pairwise_cons.mp h₂).1 x h
          rcases List.mem_cons.mp (hp.symm.mem_iff.mp (List.mem_cons_self y ys)) with h' | h'
          · exact h'.symm
          · have hxy : key x < key y := (List.pairwise_cons.mp h₁).1 y h'
            omega
      subst hx
      rw [ih hp.cons_inv (List.pairwise_cons.mp h₁).2 (List.pairwise_cons.mp h₂).2]

/-- With pairwise-distinct item numbers, sorting rubric items by
`item_number` yields a strictly ascending list. -/
theorem pairwise_lt_insertionSort_riLE {l : List RubricItem}
    (hnd : (l.map (fun ri => ri.item_number)).Nodup) :
    (l.insertionSort riLE).Pairwise (fun a b => a.item_number < b.item_number) := by
  have hsorted : List.Sorted riLE (l.insertionSort riLE) := List.sorted_insertionSort riLE l
  have hnd' : ((l.insertionSort riLE).map (fun ri => ri.item_number)).Nodup :=
    (((List.perm_insertionSort riLE l).map (fun ri => ri.item_number)).nodup_iff).mpr hnd
  rw [List.Nodup, List.pairwise_map] at hnd'
  exact (List.Pairwise.and hsorted hnd').imp (fun h => lt_of_le_of_ne h.1 h.2)

/-- With pairwise-distinct item numbers, sorting by `item_number` does not
depend on the insertion order of the items. -/
theorem insertionSort_riLE_eq_of_perm {l₁ l₂ : List RubricItem}
    (hp : l₁.Perm l₂) (hnd : (l₁.map (fun ri => ri.item_number)).Nodup) :
    l₁.insertionSort riLE = l₂.insertionSort riLE := by
  have hnd₂ : (l₂.map (fun ri => ri.item_number)).Nodup :=
    ((hp.map (fun ri => ri.item_number)).nodup_iff).mp hnd
  exact eq_of_perm_of_pairwise_lt
    (((List.perm_insertionSort riLE l₁).trans hp).trans (List.perm_insertionSort riLE l₂).symm)
    (pairwise_lt_insertionSort_riLE hnd) (pairwise_lt_insertionSort_riLE hnd₂)

theorem pickLatest_mem (g : Grader) : ∀ l : List Grader, pickLatest g l = g ∨ pickLatest g l ∈ l
  | [] => .inl rfl
  | h :: t => by
    unfold pickLatest
    by_cases hc : g.date_created < h.date_created
    · rw [if_pos hc]
      rcases pickLatest_mem h t with h' | h'
      · exact .inr (by rw [h']; exact List.mem_cons_self h t)
      · exact .inr (List.mem_cons_of_mem h h')
    · rw [if_neg hc]
      rcases pickLatest_mem g t with h' | h'
      · exact .inl h'
      · exact .inr (List.mem_cons_of_mem h h')

theorem pickLatest_max (g : Grader) : ∀ l : List Grader,
    g.date_created ≤ (pickLatest g l).date_created ∧
      ∀ h ∈ l, h.date_created ≤ (pickLatest g l).date_created
  | [] => ⟨le_refl _, by intro h hh; cases hh⟩
  | h :: t => by
    unfold pickLatest
    by_cases hc : g.date_created < h.date_created
    · rw [if_pos hc]
      obtain ⟨h1, h2⟩ := pickLatest_max h t
      refine ⟨le_trans (le_of_lt hc) h1, ?_⟩
      intro x hx
      rcases List.mem_cons.mp hx with he | ht
      · exact he ▸ h1
      · exact h2 x ht
    · rw [if_neg hc]
      obtain ⟨h1, h2⟩ := pickLatest_max g t
      refine ⟨h1, ?_⟩
      intro x hx
      rcases List.mem_cons.mp hx with he | ht
      · exact he ▸ le_trans (Nat.le_of_not_lt hc) h1
      · exact h2 x ht

/-! ### Concrete sample data for witnesses and counterexamples -/

/-- Sample submission row used by the concrete witnesses. -/
def subBase : Submission := {
  id := 7
  preferred_grader_type := "NA"
  next_grader_type := "NA"
  previous_grader_type := "NA"
  state := "C"
  date_created := 0
  prompt := "prompt"
  rubric := "<rubric></rubric>"
  student_id := "stu1"
  problem_id := "prob1"
  location := "i4x://org/course/problem/p1"
  max_score := 10
  course_id := "course1" }

/-- A rubric that was attached but never finished scoring. -/
def unfinishedRubric : Rubric := {
  rubric_version := "1"
  finished_scoring := false
  date_created := 4
  date_modified := 4
  items := [] }

/-- A successful self-assessment attempt (grader type outside
Instructor/ML/BasicCheck/Peer handling). -/
def gSelf : Grader := {
  id := 21
  score := 4
  feedback := "self graded"
  status_code := "S"
  date_created := 10
  date_modified := 10
  grader_id := "stu1"
  grader_type := "SE"
  confidence := 1
  is_calibration := false
  rubrics := [] }

/-- A successful peer attempt whose only rubric is unfinished. -/
def gIncompleteRubric : Grader := {
  id := 31
  score := 5
  feedback := "peer fb"
  status_code := "S"
  date_created := 12
  date_modified := 12
  grader_id := "peer9"
  grader_type := "PE"
  confidence := 1
  is_calibration := false
  rubrics := [unfinishedRubric] }

def sC4 : SubmissionRecord := ⟨subBase, [gSelf]⟩

/-! ### Claim C5 -/

/-- C5: a submission with zero grading attempts of any status is not
aggregated to a score: `get_all_successful_scores_and_feedback` has no
successful grader, and indexing the empty failed-grader queryset raises
`IndexError`, so an error and never a score is produced. -/
theorem c5_no_attempts_error (maxGraderCount : Nat) (s : SubmissionRecord)
    (h : s.graders = []) :
    get_all_successful_scores_and_feedback maxGraderCount s = .error "IndexError" := by
  simp [get_all_successful_scores_and_feedback, get_successful_graders,
    get_unsuccessful_graders, h]

theorem c5_witness :
    (SubmissionRecord.mk subBase []).graders = [] ∧
      get_all_successful_scores_and_feedback 3 (SubmissionRecord.mk subBase []) =
        .error "IndexError" :=
  ⟨rfl, c5_no_attempts_error 3 (SubmissionRecord.mk subBase []) rfl⟩

/-! ### Claim C4 -/

/-- C4: when no aggregation rule matches — there is a successful attempt,
the most recent one's grader type is none of Instructor, ML, BasicCheck,
and the routing history does not end in Peer — the aggregation returns the
explicit inconsistent-state failure with `success = false` and
`score = -1`, never a best-guess score. -/
theorem c4_inconsistent_state (maxGraderCount : Nat) (s : SubmissionRecord)
    (g : Grader) (gs : List Grader)
    (h1 : (get_successful_graders s).insertionSort gdmGE = g :: gs)
    (h2 : g.grader_type ≠ "IN") (h3 : g.grader_type ≠ "ML") (h4 : g.grader_type ≠ "BC")
    (h5 : s.sub.previous_grader_type ≠ "PE") :
    get_all_successful_scores_and_feedback maxGraderCount s =
      .ok (.inconsistent (-1) "There was an error with your submission."
        s.sub.previous_grader_type false false "" [] [] s.sub.student_id) := by
  simp only [get_all_successful_scores_and_feedback]
  rw [h1]
  simp [beq_eq_false_iff_ne.mpr h2, beq_eq_false_iff_ne.mpr h3,
    beq_eq_false_iff_ne.mpr h4, beq_eq_false_iff_ne.mpr h5]

theorem c4_witness :
    (get_successful_graders sC4).insertionSort gdmGE = [gSelf] ∧
      get_all_successful_scores_and_feedback 3 sC4 =
        .ok (.inconsistent (-1) "There was an error with your submission."
          "NA" false false "" [] [] "stu1") :=
  ⟨rfl, c4_inconsistent_state 3 sC4 gSelf [] rfl (by decide) (by decide) (by decide) (by decide)⟩

/-! ### Claim C8 -/

/-- C8: with at least one grading attempt, `set_previous_grader_type`
stores the grader type of an attempt carrying the latest creation
timestamp; with no attempt it sets nothing (the source's `max([])` raises
`ValueError`), so `previous_grader_type` is only ever set once an attempt
exists. -/
theorem c8_set_previous_grader_type (s : SubmissionRecord) :
    (s.graders = [] → set_previous_grader_type s = none) ∧
      (s.graders ≠ [] → ∃ g, g ∈ s.graders ∧
        (∀ h ∈ s.graders, h.date_created ≤ g.date_created) ∧
        set_previous_grader_type s =
          some ({ s with sub := { s.sub with previous_grader_type := g.grader_type } },
            "Save ok.")) := by
  constructor
  · intro h; simp [set_previous_grader_type, get_last_grader, h]
  · intro h
    cases hg : s.graders with
    | nil => exact absurd hg h
    | cons g0 gs =>
      refine ⟨pickLatest g0 gs, ?_, ?_, ?_⟩
      · rcases pickLatest_mem g0 gs with h' | h'
        · rw [h']; exact List.mem_cons_self g0 gs
        · exact List.mem_cons_of_mem g0 h'
      · intro x hx
        obtain ⟨h1, h2⟩ := pickLatest_max g0 gs
        rcases List.mem_cons.mp hx with he | ht
        · exact he ▸ h1
        · exact h2 x ht
      · simp [set_previous_grader_type, get_last_grader, hg]

theorem c8_witness :
    (set_previous_grader_type (SubmissionRecord.mk subBase []) = none) ∧
      ((SubmissionRecord.mk subBase [gSelf, gIncompleteRubric]).graders ≠ [] ∧
        ∃ g, g ∈ (SubmissionRecord.mk subBase [gSelf, gIncompleteRubric]).graders ∧
          (∀ h ∈ (SubmissionRecord.mk subBase [gSelf, gIncompleteRubric]).graders,
            h.date_created ≤ g.date_created) ∧
          set_previous_grader_type (SubmissionRecord.mk subBase [gSelf, gIncompleteRubric]) =
            some ({ SubmissionRecord.mk subBase [gSelf, gIncompleteRubric] with
              sub := { (SubmissionRecord.mk subBase [gSelf, gIncompleteRubric]).sub with
                previous_grader_type := g.grader_type } }, "Save ok.")) :=
  ⟨(c8_set_previous_grader_type (SubmissionRecord.mk subBase [])).1 rfl,
    by decide,
    (c8_set_previous_grader_type (SubmissionRecord.mk subBase [gSelf, gIncompleteRubric])).2
      (by decide)⟩

/-! ### Claim C7 -/

/-- C7 failing input: a grading attempt whose only rubric has
`finished_scoring = false`.  `has_rubric` is true (it counts all rubrics),
so the source calls `get_latest_rubric`, whose `finished_scoring=True`
queryset is empty, and its `[0]` raises `IndexError` — instead of
reporting `rubric_scores_complete = false` with no headers and scores as
the claim states. -/
theorem c7_incomplete_rubric_raises :
    has_rubric gIncompleteRubric = true ∧
      (∀ r ∈ gIncompleteRubric.rubrics, r.finished_scoring = false) ∧
      check_for_and_return_latest_rubric gIncompleteRubric = .error "IndexError" ∧
      get_latest_rubric_headers_and_scores gIncompleteRubric = .error "IndexError" := by
  refine ⟨rfl, ?_, rfl, rfl⟩
  decide

/-! ### Claim C3 -/

/-- A failed ML attempt carrying only an unfinished rubric. -/
def gFailML : Grader := {
  id := 41
  score := 0
  feedback := "ML grading failed"
  status_code := "F"
  date_created := 3
  date_modified := 3
  grader_id := "ml_v1"
  grader_type := "ML"
  confidence := 0
  is_calibration := false
  rubrics := [unfinishedRubric] }

/-- A failed ML attempt with no rubric attached. -/
def gFailMLNoRubric : Grader := { gFailML with id := 42, rubrics := [] }

def sC3bad : SubmissionRecord := ⟨subBase, [gFailML]⟩

def sC3 : SubmissionRecord := ⟨subBase, [gFailMLNoRubric]⟩

/-- C3 counterexample: a submission whose single attempt is a failed ML
attempt — at least one attempt, none successful, as the claim requires —
but whose rubric set holds only an unfinished rubric: the aggregation
raises `IndexError` instead of returning the claimed
`success = false, score = 0, feedback` result. -/
theorem c3_counterexample :
    sC3bad.graders ≠ [] ∧ (∀ g ∈ sC3bad.graders, g.status_code = "F") ∧
      get_all_successful_scores_and_feedback 3 sC3bad = .error "IndexError" :=
  ⟨by decide, by decide, rfl⟩

/-- C3 (amended): for a submission with at least one attempt, none of them
successful, whose strictly most recently modified (failed) attempt has
either no rubrics or a finished one among them, aggregation returns
`success = false`, `score = 0` and that attempt's feedback. -/
theorem c3_failed_only (maxGraderCount : Nat) (s : SubmissionRecord) (f : Grader)
    (hall : ∀ g ∈ s.graders, g.status_code = "F")
    (hf : f ∈ s.graders)
    (hmax : ∀ h ∈ s.graders, h ≠ f → h.date_modified < f.date_modified)
    (hrub : rubricOk f) :
    ∃ xml cmp hdrs scs,
      check_for_and_return_latest_rubric f = .ok (xml, cmp) ∧
      get_latest_rubric_headers_and_scores f = .ok (hdrs, scs) ∧
      get_all_successful_scores_and_feedback maxGraderCount s =
        .ok (.single 0 f.feedback f.grader_type false f.id s.sub.id s.sub.student_id
          xml cmp hdrs scs) := by
  have hsucc : get_successful_graders s = [] := by
    unfold get_successful_graders
    rw [List.filter_eq_nil_iff]
    intro a ha
    simp [hall a ha]
  have hfail : get_unsuccessful_graders s = s.graders := by
    unfold get_unsuccessful_graders
    rw [List.filter_eq_self]
    intro a ha
    simp [hall a ha]
  obtain ⟨t, ht⟩ := insertionSort_head_of_strict_max hf hmax
  obtain ⟨⟨xml, cmp⟩, hc⟩ := check_rubric_ok_of_rubricOk hrub
  obtain ⟨⟨hdrs, scs⟩, hh⟩ := headers_scores_ok_of_rubricOk hrub
  refine ⟨xml, cmp, hdrs, scs, hc, hh, ?_⟩
  simp only [get_all_successful_scores_and_feedback, hsucc, List.insertionSort]
  rw [hfail, ht]
  simp [hc, hh]

theorem c3_witness :
    (∀ g ∈ sC3.graders, g.status_code = "F") ∧
      (∀ h ∈ sC3.graders, h ≠ gFailMLNoRubric → h.date_modified < gFailMLNoRubric.date_modified) ∧
      ∃ xml cmp hdrs scs,
        check_for_and_return_latest_rubric gFailMLNoRubric = .ok (xml, cmp) ∧
        get_latest_rubric_headers_and_scores gFailMLNoRubric = .ok (hdrs, scs) ∧
        get_all_successful_scores_and_feedback 3 sC3 =
          .ok (.single 0 gFailMLNoRubric.feedback gFailMLNoRubric.grader_type false
            gFailMLNoRubric.id sC3.sub.id sC3.sub.student_id xml cmp hdrs scs) :=
  ⟨by decide, by decide,
    c3_failed_only 3 sC3 gFailMLNoRubric (by decide) (by decide) (by decide) (by decide)⟩

/-! ### Claim C1 -/

/-- A successful peer attempt with score 6. -/
def gPeer6 : Grader := {
  id := 51
  score := 6
  feedback := "peer says 6"
  status_code := "S"
  date_created := 20
  date_modified := 20
  grader_id := "peerA"
  grader_type := "PE"
  confidence := 1
  is_calibration := false
  rubrics := [] }

/-- A successful peer attempt with score 7, after `gPeer6`. -/
def gPeer7 : Grader := { gPeer6 with
  id := 52
  score := 7
  feedback := "peer says 7"
  date_created := 21
  date_modified := 21
  grader_id := "peerB" }

/-- A successful instructor attempt with score 8, after both peers. -/
def gInstructor8 : Grader := {
  id := 53
  score := 8
  feedback := "instructor says 8"
  status_code := "S"
  date_created := 30
  date_modified := 30
  grader_id := "staff1"
  grader_type := "IN"
  confidence := 1
  is_calibration := false
  rubrics := [] }

/-- The same instructor attempt but carrying only an unfinished rubric. -/
def gINBadRubric : Grader := { gInstructor8 with id := 54, rubrics := [unfinishedRubric] }

def sC1bad : SubmissionRecord := ⟨subBase, [gINBadRubric]⟩

def sC1 : SubmissionRecord :=
  ⟨{ subBase with previous_grader_type := "IN" }, [gPeer6, gPeer7, gInstructor8]⟩

/-- C1 counterexample: a submission whose most recent (only) successful
attempt is an Instructor attempt — satisfying the claim's condition — but
whose rubric set holds only an unfinished rubric: aggregation raises
`IndexError` instead of returning that attempt's result with
`success = true`. -/
theorem c1_counterexample :
    gINBadRubric ∈ sC1bad.graders ∧ gINBadRubric.status_code = "S" ∧
      gINBadRubric.grader_type = "IN" ∧
      get_all_successful_scores_and_feedback 3 sC1bad = .error "IndexError" :=
  ⟨by decide, rfl, rfl, rfl⟩

/-- C1 (amended): if the strictly most recently modified successful
attempt has type Instructor or ML, or type BasicCheck while no Peer
attempt exists anywhere in the history, and that attempt's rubric set is
either empty or holds a finished rubric, aggregation returns exactly that
single attempt's score, feedback and rubric with `success = true`,
ignoring all other attempts. -/
theorem c1_authoritative (maxGraderCount : Nat) (s : SubmissionRecord) (g : Grader)
    (hg : g ∈ s.graders) (hS : g.status_code = "S")
    (hmax : ∀ h ∈ s.graders, h.status_code = "S" → h ≠ g → h.date_modified < g.date_modified)
    (htype : g.grader_type = "IN" ∨ g.grader_type = "ML" ∨
      (g.grader_type = "BC" ∧ ∀ h ∈ s.graders, h.grader_type ≠ "PE"))
    (hrub : rubricOk g) :
    ∃ xml cmp hdrs scs,
      check_for_and_return_latest_rubric g = .ok (xml, cmp) ∧
      get_latest_rubric_headers_and_scores g = .ok (hdrs, scs) ∧
      get_all_successful_scores_and_feedback maxGraderCount s =
        .ok (.single g.score g.feedback g.grader_type true g.id s.sub.id s.sub.student_id
          xml cmp hdrs scs) := by
  have hgsucc : g ∈ get_successful_graders s := by
    unfold get_successful_graders; rw [List.mem_filter]; exact ⟨hg, by simp [hS]⟩
  have hmax' : ∀ h ∈ get_successful_graders s, h ≠ g → h.date_modified < g.date_modified := by
    intro h hh hne
    have hm := List.mem_filter.mp hh
    exact hmax h hm.1 (by simpa using hm.2) hne
  obtain ⟨t, ht⟩ := insertionSort_head_of_strict_max hgsucc hmax'
  obtain ⟨⟨xml, cmp⟩, hc⟩ := check_rubric_ok_of_rubricOk hrub
  obtain ⟨⟨hdrs, scs⟩, hh⟩ := headers_scores_ok_of_rubricOk hrub
  refine ⟨xml, cmp, hdrs, scs, hc, hh, ?_⟩
  have hcond : (g.grader_type == "IN" || g.grader_type == "ML" ||
      (g.grader_type == "BC" &&
        !(((g :: t).map (fun x => x.grader_type)).any (fun ty => ty == "PE")))) = true := by
    rcases htype with hIN | hML | ⟨hBC, hnoPE⟩
    · simp [hIN]
    · simp [hML]
    · have hany : (((g :: t).map (fun x => x.grader_type)).any (fun ty => ty == "PE")) = false := by
        rw [List.any_eq_false]
        intro ty hty
        obtain ⟨a, ha, rfl⟩ := List.mem_map.mp hty
        have hms : a ∈ (get_successful_graders s).insertionSort gdmGE := by
          rw [ht]; exact ha
        have hamem : a ∈ s.graders :=
          (List.mem_filter.mp ((List.mem_insertionSort gdmGE).mp hms)).1
        simp only [beq_iff_eq]
        exact hnoPE a hamem
      rw [hany, hBC]
      decide
  simp only [get_all_successful_scores_and_feedback]
  rw [ht]
  simp only [hcond, hc, hh]
  simp

theorem c1_witness :
    gInstructor8 ∈ sC1.graders ∧ gInstructor8.status_code = "S" ∧
      gInstructor8.grader_type = "IN" ∧ gInstructor8.score = 8 ∧
      gPeer6 ∈ sC1.graders ∧ gPeer7 ∈ sC1.graders ∧
      ∃ xml cmp hdrs scs,
        check_for_and_return_latest_rubric gInstructor8 = .ok (xml, cmp) ∧
        get_latest_rubric_headers_and_scores gInstructor8 = .ok (hdrs, scs) ∧
        get_all_successful_scores_and_feedback 3 sC1 =
          .ok (.single gInstructor8.score gInstructor8.feedback gInstructor8.grader_type true
            gInstructor8.id sC1.sub.id sC1.sub.student_id xml cmp hdrs scs) :=
  ⟨by decide, rfl, rfl, rfl, by decide, by decide,
    c1_authoritative 3 sC1 gInstructor8 (by decide) rfl (by decide) (Or.inl rfl) (by decide)⟩

/-! ### Claim C2 -/

/-- Source line 166: the peer attempts the aggregation reports — the
successful attempts sorted most-recent-first, restricted to Peer, truncated
to `MAX_GRADER_COUNT`. -/
def selected_peer_graders (maxGraderCount : Nat) (s : SubmissionRecord) : List Grader :=
  (((get_successful_graders s).insertionSort gdmGE).filter
    (fun p => p.grader_type == "PE")).take maxGraderCount

/-- A successful peer attempt with score 5, before `gPeer6`. -/
def gPeer5 : Grader := { gPeer6 with
  id := 50
  score := 5
  feedback := "peer says 5"
  date_created := 19
  date_modified := 19
  grader_id := "peerC" }

def sC2 : SubmissionRecord :=
  ⟨{ subBase with previous_grader_type := "PE" }, [gPeer5, gPeer6, gPeer7]⟩

def sC2bad : SubmissionRecord :=
  ⟨{ subBase with previous_grader_type := "PE" }, [gIncompleteRubric]⟩

/-- A successful BasicCheck attempt with no rubric. -/
def gBCsuccess : Grader := {
  id := 61
  score := 1
  feedback := "basic check ok"
  status_code := "S"
  date_created := 8
  date_modified := 8
  grader_id := "bc"
  grader_type := "BC"
  confidence := 1
  is_calibration := false
  rubrics := [] }

/-- A failed Peer attempt recorded after the BasicCheck attempt. -/
def gPEfailed : Grader := {
  id := 62
  score := 0
  feedback := "peer grading failed"
  status_code := "F"
  date_created := 9
  date_modified := 9
  grader_id := "peerX"
  grader_type := "PE"
  confidence := 0
  is_calibration := false
  rubrics := [] }

/-- Routing history ending in Peer (`previous_grader_type = PE`, set from
the failed Peer attempt, so a Peer attempt exists in the history) while
the most recent successful attempt is the BasicCheck one and no
successful Peer attempt exists. -/
def sC2bc : SubmissionRecord :=
  ⟨{ subBase with previous_grader_type := "PE" }, [gBCsuccess, gPEfailed]⟩

/-- C2 counterexample: two corners where the claim as stated fails.
First, a submission whose routing ends in Peer with one successful Peer
attempt whose only rubric is unfinished: aggregation raises `IndexError`
instead of returning the claimed parallel peer-list result.  Second, a
submission whose routing ends in Peer (`previous_grader_type = PE`, set
from a failed Peer attempt, so a Peer attempt exists in the history)
while the most recent — and only — successful attempt is BasicCheck with
no successful Peer attempt: the source's line-156 test,
`"PE" not in all_graders_types`, ranges over successful attempts only, so
aggregation returns that single BasicCheck attempt with `success = true`
rather than the claimed parallel peer list. -/
theorem c2_counterexample :
    (sC2bad.sub.previous_grader_type = "PE" ∧
      (∀ g ∈ sC2bad.graders, g.status_code = "S" ∧ g.grader_type = "PE") ∧
      get_all_successful_scores_and_feedback 3 sC2bad = .error "IndexError") ∧
    (sC2bc.sub.previous_grader_type = "PE" ∧
      gPEfailed ∈ sC2bc.graders ∧ gPEfailed.grader_type = "PE" ∧
      gBCsuccess ∈ sC2bc.graders ∧ gBCsuccess.grader_type = "BC" ∧
      gBCsuccess.status_code = "S" ∧
      (∀ g ∈ sC2bc.graders, g.status_code = "S" → g = gBCsuccess) ∧
      get_all_successful_scores_and_feedback 3 sC2bc =
        .ok (.single gBCsuccess.score gBCsuccess.feedback "BC" true gBCsuccess.id
          sC2bc.sub.id sC2bc.sub.student_id "" false [] [])) :=
  ⟨⟨rfl, by decide, rfl⟩,
    ⟨rfl, by decide, rfl, by decide, rfl, rfl, by decide, rfl⟩⟩

/-- C2 (amended): when there is a successful attempt, the most recent one
is not authoritative (not Instructor/ML; if BasicCheck then a successful
Peer attempt exists) and the routing history ends in Peer (or BasicCheck
co-occurs with successful Peer attempts), aggregation returns the parallel
peer-list result over the most-recent-first successful Peer attempts
truncated to `MAX_GRADER_COUNT` — one score, feedback, rubric summary and
attempt id per peer, `grader_type = Peer`, `success = true` — provided
each selected peer's rubric set is either empty or holds a finished
rubric. -/
theorem c2_peer_aggregation (maxGraderCount : Nat) (s : SubmissionRecord)
    (g : Grader) (gs : List Grader)
    (h1 : (get_successful_graders s).insertionSort gdmGE = g :: gs)
    (hnoIN : g.grader_type ≠ "IN") (hnoML : g.grader_type ≠ "ML")
    (hbranch : (s.sub.previous_grader_type = "PE" ∧ g.grader_type ≠ "BC") ∨
      (g.grader_type = "BC" ∧ ∃ p ∈ g :: gs, p.grader_type = "PE"))
    (hrub : ∀ p ∈ selected_peer_graders maxGraderCount s, rubricOk p) :
    ∃ crs hss,
      mapExcept check_for_and_return_latest_rubric
        (selected_peer_graders maxGraderCount s) = .ok crs ∧
      mapExcept get_latest_rubric_headers_and_scores
        (selected_peer_graders maxGraderCount s) = .ok hss ∧
      crs.length = (selected_peer_graders maxGraderCount s).length ∧
      hss.length = (selected_peer_graders maxGraderCount s).length ∧
      (selected_peer_graders maxGraderCount s).length ≤ maxGraderCount ∧
      (∀ p ∈ selected_peer_graders maxGraderCount s,
        p.grader_type = "PE" ∧ p.status_code = "S") ∧
      (selected_peer_graders maxGraderCount s).Pairwise gdmGE ∧
      get_all_successful_scores_and_feedback maxGraderCount s =
        .ok (.peerList ((selected_peer_graders maxGraderCount s).map (fun p => p.score))
          ((selected_peer_graders maxGraderCount s).map (fun p => p.feedback)) "PE" true
          ((selected_peer_graders maxGraderCount s).map (fun p => p.id))
          s.sub.id s.sub.student_id
          (crs.map Prod.fst) (crs.map Prod.snd) (hss.map Prod.fst) (hss.map Prod.snd)) := by
  have hanyB : (∃ p ∈ g :: gs, p.grader_type = "PE") →
      (((g :: gs).map (fun x => x.grader_type)).any (fun ty => ty == "PE")) = true := by
    rintro ⟨p, hp, hpPE⟩
    rw [List.any_eq_true]
    exact ⟨p.grader_type, List.mem_map.mpr ⟨p, hp, rfl⟩, by simp [hpPE]⟩
  have hc2 : (g.grader_type == "IN" || g.grader_type == "ML" ||
      (g.grader_type == "BC" &&
        !(((g :: gs).map (fun x => x.grader_type)).any (fun ty => ty == "PE")))) = false := by
    rcases hbranch with ⟨_, hnBC⟩ | ⟨hBC, hex⟩
    · rw [beq_eq_false_iff_ne.mpr hnoIN, beq_eq_false_iff_ne.mpr hnoML,
        beq_eq_false_iff_ne.mpr hnBC]
      rfl
    · rw [beq_eq_false_iff_ne.mpr hnoIN, beq_eq_false_iff_ne.mpr hnoML, hanyB hex, hBC]
      rfl
  have hc3 : (s.sub.previous_grader_type == "PE" ||
      (g.grader_type == "BC" &&
        (((g :: gs).map (fun x => x.grader_type)).any (fun ty => ty == "PE")))) = true := by
    rcases hbranch with ⟨hprev, _⟩ | ⟨hBC, hex⟩
    · rw [hprev]; rfl
    · rw [hanyB hex, hBC]
      simp
  have hpeers : selected_peer_graders maxGraderCount s =
      ((g :: gs).filter (fun p => p.grader_type == "PE")).take maxGraderCount := by
    unfold selected_peer_graders
    rw [h1]
  obtain ⟨crs, hcrs, hlen1⟩ :=
    mapExcept_ok_of_forall (f := check_for_and_return_latest_rubric)
      (l := selected_peer_graders maxGraderCount s)
      (fun p hp => check_rubric_ok_of_rubricOk (hrub p hp))
  obtain ⟨hss, hhss, hlen2⟩ :=
    mapExcept_ok_of_forall (f := get_latest_rubric_headers_and_scores)
      (l := selected_peer_graders maxGraderCount s)
      (fun p hp => headers_scores_ok_of_rubricOk (hrub p hp))
  have hle : (selected_peer_graders maxGraderCount s).length ≤ maxGraderCount := by
    unfold selected_peer_graders
    exact (List.length_take _ _).le.trans (min_le_left _ _)
  have hmemP : ∀ p ∈ selected_peer_graders maxGraderCount s,
      p.grader_type = "PE" ∧ p.status_code = "S" := by
    intro p hp
    simp only [selected_peer_graders] at hp
    have hp1 := List.mem_of_mem_take hp
    have hp2 := List.mem_filter.mp hp1
    have hp3 := List.mem_filter.mp ((List.mem_insertionSort gdmGE).mp hp2.1)
    exact ⟨by simpa using hp2.2, by simpa using hp3.2⟩
  have hpw : (selected_peer_graders maxGraderCount s).Pairwise gdmGE := by
    have hs := List.sorted_insertionSort gdmGE (get_successful_graders s)
    simp only [selected_peer_graders]
    exact hs.sublist (List.Sublist.trans (List.take_sublist _ _) (List.filter_sublist _))
  refine ⟨crs, hss, hcrs, hhss, hlen1, hlen2, hle, hmemP, hpw, ?_⟩
  rw [hpeers] at hcrs hhss ⊢
  simp only [get_all_successful_scores_and_feedback]
  rw [h1]
  simp only [hc2, hc3]
  simp only [hcrs, hhss]
  simp

/-- C2 witness: three successful peer attempts (scores 5, 6, 7) with
`MAX_GRADER_COUNT = 2`: exactly the two most recent peers (7 then 6) are
returned, never three. -/
theorem c2_witness :
    (get_successful_graders sC2).insertionSort gdmGE = gPeer7 :: [gPeer6, gPeer5] ∧
      selected_peer_graders 2 sC2 = [gPeer7, gPeer6] ∧
      (selected_peer_graders 2 sC2).map (fun p => p.score) = [7, 6] ∧
      ∃ crs hss,
        mapExcept check_for_and_return_latest_rubric (selected_peer_graders 2 sC2) = .ok crs ∧
        mapExcept get_latest_rubric_headers_and_scores (selected_peer_graders 2 sC2) = .ok hss ∧
        crs.length = (selected_peer_graders 2 sC2).length ∧
        hss.length = (selected_peer_graders 2 sC2).length ∧
        (selected_peer_graders 2 sC2).length ≤ 2 ∧
        (∀ p ∈ selected_peer_graders 2 sC2, p.grader_type = "PE" ∧ p.status_code = "S") ∧
        (selected_peer_graders 2 sC2).Pairwise gdmGE ∧
        get_all_successful_scores_and_feedback 2 sC2 =
          .ok (.peerList ((selected_peer_graders 2 sC2).map (fun p => p.score))
            ((selected_peer_graders 2 sC2).map (fun p => p.feedback)) "PE" true
            ((selected_peer_graders 2 sC2).map (fun p => p.id))
            sC2.sub.id sC2.sub.student_id
            (crs.map Prod.fst) (crs.map Prod.snd) (hss.map Prod.fst) (hss.map Prod.snd)) :=
  ⟨rfl, rfl, rfl,
    c2_peer_aggregation 2 sC2 gPeer7 [gPeer6, gPeer5] rfl (by decide) (by decide)
      (Or.inl ⟨rfl, by decide⟩) (by decide)⟩

/-! ### Claim C6 -/

/-- The "Clarity" rubric category: score 2 of max 3, item number 0. -/
def itemClarity : RubricItem := {
  text := "Clarity"
  short_text := ""
  comment := ""
  score := 2
  max_score := 3
  finished_scoring := true
  item_number := 0
  options := [] }

/-- The "Grammar" rubric category: score 1 of max 2, item number 1. -/
def itemGrammar : RubricItem := {
  text := "Grammar"
  short_text := ""
  comment := ""
  score := 1
  max_score := 2
  finished_scoring := true
  item_number := 1
  options := [] }

def rubricClarityFirst : Rubric := {
  rubric_version := "1"
  finished_scoring := true
  date_created := 1
  date_modified := 1
  items := [itemClarity, itemGrammar] }

def rubricGrammarFirst : Rubric := { rubricClarityFirst with items := [itemGrammar, itemClarity] }

/-- C6: the per-item score and label sequences of a rubric are read in
strictly ascending `item_number` order, are aligned on the same sorted
item list, and (for pairwise-distinct item numbers) do not depend on the
insertion order of the items. -/
theorem c6_rubric_order (r₁ r₂ : Rubric) (hp : r₁.items.Perm r₂.items)
    (hnd : (r₁.items.map (fun ri => ri.item_number)).Nodup) :
    get_rubric_scores r₁ = get_rubric_scores r₂ ∧
      get_rubric_headers r₁ = get_rubric_headers r₂ ∧
      ∃ sortedItems : List RubricItem, sortedItems.Perm r₁.items ∧
        sortedItems.Pairwise (fun a b => a.item_number < b.item_number) ∧
        get_rubric_scores r₁ = sortedItems.map (fun ri => ri.score) ∧
        get_rubric_headers r₁ = sortedItems.map (fun ri => ri.text) := by
  have he := insertionSort_riLE_eq_of_perm hp hnd
  exact ⟨by unfold get_rubric_scores; rw [he], by unfold get_rubric_headers; rw [he],
    r₁.items.insertionSort riLE, List.perm_insertionSort riLE r₁.items,
    pairwise_lt_insertionSort_riLE hnd, rfl, rfl⟩

/-- C6 witness: the Clarity/Grammar rubric read back in both insertion
orders yields headers `["Clarity", "Grammar"]` and scores `[2, 1]`. -/
theorem c6_witness :
    rubricClarityFirst.items.Perm rubricGrammarFirst.items ∧
      get_rubric_headers rubricClarityFirst = ["Clarity", "Grammar"] ∧
      get_rubric_scores rubricClarityFirst = [2, 1] ∧
      get_rubric_headers rubricGrammarFirst = ["Clarity", "Grammar"] ∧
      get_rubric_scores rubricGrammarFirst = [2, 1] ∧
      (get_rubric_scores rubricClarityFirst = get_rubric_scores rubricGrammarFirst ∧
        get_rubric_headers rubricClarityFirst = get_rubric_headers rubricGrammarFirst ∧
        ∃ sortedItems : List RubricItem, sortedItems.Perm rubricClarityFirst.items ∧
          sortedItems.Pairwise (fun a b => a.item_number < b.item_number) ∧
          get_rubric_scores rubricClarityFirst = sortedItems.map (fun ri => ri.score) ∧
          get_rubric_headers rubricClarityFirst = sortedItems.map (fun ri => ri.text)) :=
  ⟨List.Perm.swap itemGrammar itemClarity [], rfl, rfl, rfl, rfl,
    c6_rubric_order rubricClarityFirst rubricGrammarFirst
      (List.Perm.swap itemGrammar itemClarity []) (by decide)⟩

/-! ### Claim C9 -/

/-- C9: a POST `save_grade` request in which `course_id`, `grader_id` or
`submission_id` is absent, or `score` or `feedback` is absent, yields the
tagged `required_parameter_missing` error response and leaves the store
untouched — no Grader record is created — for every implementation of the
downstream helpers. -/
theorem c9_missing_parameter
    (set_skipped : String → ControllerDB → Bool × String × ControllerDB)
    (parse_rubric_ok : String → Bool)
    (validate_rubric_scores : List String → Option String → Submission → Bool × String)
    (create_grader : GraderPayload → ControllerDB → Bool × String × ControllerDB)
    (req : SaveGradeRequest) (db : ControllerDB)
    (hm : req.method = "POST")
    (habs : req.course_id = none ∨ req.grader_id = none ∨ req.submission_id = none ∨
      req.score = none ∨ req.feedback = none) :
    save_grade set_skipped parse_rubric_ok validate_rubric_scores create_grader req db =
      .ok (.err "required_parameter_missing", db) := by
  unfold save_grade
  rw [hm]
  rcases habs with h | h | h | h | h <;> simp [h, truthyStr]

/-- A well-formed POST request except that `course_id` is absent. -/
def reqMissingCourse : SaveGradeRequest := {
  method := "POST"
  course_id := none
  grader_id := some "g1"
  submission_id := some "7"
  score := some "5"
  feedback := some "fine"
  skipped := none
  rubric_scores_complete := none
  rubric_scores := []
  submission_flagged := none }

def dbOne : ControllerDB := ⟨[subBase]⟩

theorem c9_witness :
    reqMissingCourse.method = "POST" ∧ reqMissingCourse.course_id = none ∧
      save_grade (fun _ db => (true, "", db)) (fun _ => true) (fun _ _ _ => (true, ""))
        (fun _ db => (true, "", db)) reqMissingCourse dbOne =
        .ok (.err "required_parameter_missing", dbOne) :=
  ⟨rfl, rfl,
    c9_missing_parameter (fun _ db => (true, "", db)) (fun _ => true) (fun _ _ _ => (true, ""))
      (fun _ db => (true, "", db)) reqMissingCourse dbOne rfl (Or.inl rfl)⟩

/-! ### Claim C10 -/

theorem buildLocationInfo_num_required (minPeer minML : Int) (problem_name : String → String)
    (pending_count graded_count : String → Nat) (subs : List Submission) :
    ∀ (locs : List String) (items : List ProblemListItem),
      buildLocationInfo minPeer minML problem_name pending_count graded_count subs locs =
        .ok items →
      ∀ item ∈ items,
        item.num_required =
          max 0 ((if 0 < (subs.filter (fun s =>
              s.location == item.location && s.preferred_grader_type == "ML")).length
            then minML else minPeer) - (item.num_graded : Int)) ∧
        0 ≤ item.num_required := by
  intro locs
  induction locs with
  | nil =>
    intro items h item hitem
    simp only [buildLocationInfo] at h
    injection h with h
    subst h
    cases hitem
  | cons loc rest ih =>
    intro items h item hitem
    simp only [buildLocationInfo] at h
    split at h
    · exact absurd h (by simp)
    · split at h
      · exact absurd h (by simp)
      · rename_i tail hrec
        injection h with h
        subst h
        rcases List.mem_cons.mp hitem with he | ht
        · subst he
          exact ⟨rfl, le_max_left 0 _⟩
        · exact ih tail hrec item ht

/-- C10: every problem location reported by `get_problem_list` carries
`num_required = max 0 (T - num_graded)` where `T` is `MIN_TO_USE_ML` when
a submission at that location prefers ML grading and `MIN_TO_USE_PEER`
otherwise; in particular `num_required` is never negative. -/
theorem c10_num_required (minPeer minML : Int) (problem_name : String → String)
    (pending_count graded_count : String → Nat)
    (method : String) (course_id : Option String) (subs : List Submission)
    (items : List ProblemListItem)
    (h : get_problem_list minPeer minML problem_name pending_count graded_count method
      course_id subs = .ok (.success items)) :
    ∀ item ∈ items,
      item.num_required =
        max 0 ((if 0 < (subs.filter (fun s =>
            s.location == item.location && s.preferred_grader_type == "ML")).length
          then minML else minPeer) - (item.num_graded : Int)) ∧
      0 ≤ item.num_required := by
  intro item hitem
  unfold get_problem_list at h
  split at h
  · exact absurd h (by simp)
  · split at h
    · exact absurd h (by simp)
    · simp only [] at h
      split at h
      · exact absurd h (by simp)
      · split at h
        · exact absurd h (by simp)
        · rename_i loc_info hrec
          injection h with h
          injection h with h
          subst h
          exact buildLocationInfo_num_required minPeer minML problem_name pending_count
            graded_count subs _ loc_info hrec item hitem

/-- A second submission at another location preferring ML grading. -/
def subML : Submission := { subBase with
  id := 8
  location := "i4x://org/course/problem/p2"
  preferred_grader_type := "ML" }

def c10subs : List Submission := [subBase, subML]

def c10items : List ProblemListItem := [
  { location := "i4x://org/course/problem/p1"
    problem_name := "Problem"
    problem_name_from_location := "org/course/problem/p1"
    num_graded := 1
    num_pending := 2
    num_required := 2
    min_for_ml := 5 },
  { location := "i4x://org/course/problem/p2"
    problem_name := "Problem"
    problem_name_from_location := "org/course/problem/p2"
    num_graded := 1
    num_pending := 2
    num_required := 4
    min_for_ml := 5 } ]

theorem c10_witness :
    get_problem_list 3 5 (fun _ => "Problem") (fun _ => 2) (fun _ => 1) "GET"
        (some "course1") c10subs = .ok (.success c10items) ∧
      ∀ item ∈ c10items,
        item.num_required =
          max 0 ((if 0 < (c10subs.filter (fun s =>
              s.location == item.location && s.preferred_grader_type == "ML")).length
            then 5 else 3) - (item.num_graded : Int)) ∧
        0 ≤ item.num_required :=
  ⟨rfl,
    c10_num_required 3 5 (fun _ => "Problem") (fun _ => 2) (fun _ => 1) "GET"
      (some "course1") c10subs c10items rfl⟩

end EdxOra
